import Mathlib

/-!
# Gestor de Citas: client-side calendar and page-chrome scripts

A shallow embedding of `static/js/calendar.js` and `static/js/main.js`.

* JavaScript strings are Lean `String`s; `undefined` is `none` of an `Option`.
* The document is passed explicitly: every `document.getElementById` result is
  an `Option` field (absent element = `null` = `none`), every write to the
  document produces a new document value.
* A function that can raise returns the document reached so far together with
  a `Completion` (normal, or the error thrown).
* What belongs to the browser or to a library (the selector engine, the locale
  formatting of dates) is a parameter of the definitions.
-/

set_option autoImplicit false

namespace GestorCitas

/-! ## JavaScript basics -/

/-- Errors the embedded code can raise. -/
inductive JsError where
  /-- Property access or assignment on `null` or `undefined`. -/
  | typeError
  /-- Raised by the selector engine for a selector it cannot parse. -/
  | syntaxError
  deriving DecidableEq, Repr

/-- How a call ends: it returns, or it throws. -/
inductive Completion where
  | normal
  | throw (e : JsError)
  deriving DecidableEq, Repr

/-- Separator-delimited segments of a character list, as
`String.prototype.split` computes them for a one-character separator: the
result always has at least one segment. -/
def splitChars (sep : Char) : List Char → List (List Char)
  | [] => [[]]
  | c :: cs =>
    if c = sep then [] :: splitChars sep cs
    else
      match splitChars sep cs with
      | [] => [[c]]
      | seg :: rest => (c :: seg) :: rest

/-- `s.split(sep)` for a one-character separator. -/
def split (s : String) (sep : Char) : List String :=
  (splitChars sep s.data).map String.mk

/-- Array indexing inside a string context: `arr[i]` is `undefined` out of
range, and `undefined` is written out as the text `undefined`. -/
def indexToString (arr : List String) (i : Nat) : String :=
  match arr.get? i with
  | some s => s
  | none => "undefined"

/-- `String.prototype.includes`: does `needle` occur in `s` as a contiguous
run of characters. -/
def includesChars : List Char → List Char → Bool
  | [], needle => needle.isEmpty
  | c :: cs, needle => needle.isPrefixOf (c :: cs) || includesChars cs needle

/-- `s.includes(needle)`. -/
def includes (s needle : String) : Bool :=
  includesChars s.data needle.data

/-- `a || b` on optional strings: the empty string and `undefined` are falsy. -/
def orString (a : Option String) (b : String) : String :=
  match a with
  | some s => if s = "" then b else s
  | none => b

/-! ## calendar.js: `selectBookingDate` -/

/-- What `selectBookingDate` does to the page, in order. -/
inductive BookingEffect where
  /-- `dateInput.value = v` -/
  | setValue (v : String)
  /-- `dateInput.dispatchEvent(new Event('change'))` -/
  | dispatchChange
  /-- `new bootstrap.Tab(dateTab).show()` on the tab with this handle -/
  | showTab (tab : Nat)
  deriving DecidableEq, Repr

/-- The part of the document `selectBookingDate` touches. -/
structure BookingDocument where
  /-- Value of the element with id `date`; `none` when there is no such element. -/
  dateInput : Option String
  /-- The selector engine, `document.querySelector`: for a selector string it
  raises, finds nothing, or returns the handle of the first matching element. -/
  querySelector : String → Except JsError (Option Nat)
  /-- Effects performed so far, oldest first. -/
  log : List BookingEffect

/-- The expression `dateStr.split('T')[0]`. -/
def datePortion (dateStr : String) : String :=
  indexToString (split dateStr 'T') 0

/-- The template literal that builds the tab selector from the date portion. -/
def dateTabSelector (dateStr : String) : String :=
  "[data-date=\"" ++ datePortion dateStr ++ "\"]"

/-- Model of `selectBookingDate(dateStr)` (calendar.js, lines 231-248). -/
def selectBookingDate (dateStr : String) (doc : BookingDocument) :
    BookingDocument × Completion :=
  match doc.dateInput with
  | none => (doc, Completion.normal)
  | some _ =>
    let doc1 : BookingDocument :=
      { doc with
        dateInput := some (datePortion dateStr)
        log := doc.log ++ [BookingEffect.setValue (datePortion dateStr)] }
    let doc2 : BookingDocument :=
      { doc1 with log := doc1.log ++ [BookingEffect.dispatchChange] }
    match doc2.querySelector (dateTabSelector dateStr) with
    | Except.error e => (doc2, Completion.throw e)
    | Except.ok none => (doc2, Completion.normal)
    | Except.ok (some tab) =>
      ({ doc2 with log := doc2.log ++ [BookingEffect.showTab tab] }, Completion.normal)

/-! ## calendar.js: the event view-model and `showAppointmentDetails` -/

/-- The extended properties this code reads from an event; each may be missing. -/
structure ExtendedProps where
  clientName : Option String
  status : Option String
  notes : Option String
  deriving DecidableEq, Repr

/-- A calendar event as this code sees it. `start` and `finish` (the source's
`event.end`) are instants in milliseconds, `none` for `null`. -/
structure CalendarEvent where
  id : String
  start : Option Int
  finish : Option Int
  extendedProps : ExtendedProps
  /-- The display property written by `event.setProp('display', ...)`. -/
  display : String
  deriving DecidableEq, Repr

/-- Locale formatting supplied by the runtime for the fixed locale `es-ES` and
the option objects written in the source. -/
structure Locale where
  toLocaleDateString : Int → String
  toLocaleTimeString : Int → String

/-- `new Date(x)` for an instant or `null`: `null` converts to 0. -/
def newDate : Option Int → Int
  | some t => t
  | none => 0

/-- The part of the document `showAppointmentDetails` touches. A field is
`none` when `document.getElementById` finds no element with that id; otherwise
it holds the text (or markup, or href) the element currently carries. -/
structure ModalDocument where
  appointmentModal : Bool
  modalClientName : Option String
  modalDate : Option String
  modalTime : Option String
  modalStatus : Option String
  modalNotes : Option String
  modalEditLink : Option String
  /-- Number of times the modal has been opened with `show()`. -/
  modalShown : Nat
  deriving DecidableEq, Repr

/-- What reading a property of the object literal `statusMap` can give. -/
inductive StatusMapValue where
  /-- One of the four entries written in the literal. -/
  | info (text cls : String)
  /-- A member inherited from `Object.prototype`: a function, or for
  `__proto__` the prototype object. It is truthy and has neither a `text` nor a
  `class` property. -/
  | inherited
  deriving DecidableEq, Repr

/-- Own properties of `statusMap`, as written in the source. -/
def statusMapOwn : List (String × (String × String)) :=
  [("pending", ("Pendiente", "bg-warning")),
   ("confirmed", ("Confirmada", "bg-success")),
   ("cancelled", ("Cancelada", "bg-danger")),
   ("completed", ("Completada", "bg-info"))]

/-- Property names every plain object inherits from `Object.prototype` in a
browser: an object literal has that prototype, and a bracket read follows the
prototype chain. -/
def objectPrototypeKeys : List String :=
  ["constructor", "hasOwnProperty", "isPrototypeOf", "propertyIsEnumerable",
   "toLocaleString", "toString", "valueOf", "__proto__",
   "__defineGetter__", "__defineSetter__", "__lookupGetter__", "__lookupSetter__"]

/-- The property key a possibly missing string converts to. -/
def toPropertyKey : Option String → String
  | some s => s
  | none => "undefined"

/-- The read `statusMap[status]`: own properties first, then the prototype;
`none` is `undefined`. -/
def statusMapGet (status : Option String) : Option StatusMapValue :=
  match statusMapOwn.lookup (toPropertyKey status) with
  | some (text, cls) => some (StatusMapValue.info text cls)
  | none =>
    if objectPrototypeKeys.contains (toPropertyKey status) then some StatusMapValue.inherited
    else none

/-- The expression `statusMap[status] || { text: 'Desconocido', class: 'bg-secondary' }`:
every value a read can give is an object or function, hence truthy. -/
def statusInfo (status : Option String) : StatusMapValue :=
  match statusMapGet status with
  | some v => v
  | none => StatusMapValue.info "Desconocido" "bg-secondary"

/-- The read `statusInfo.text`, `none` for `undefined`. -/
def StatusMapValue.text : StatusMapValue → Option String
  | StatusMapValue.info text _ => some text
  | StatusMapValue.inherited => none

/-- The read `statusInfo.class`, `none` for `undefined`. -/
def StatusMapValue.cls : StatusMapValue → Option String
  | StatusMapValue.info _ cls => some cls
  | StatusMapValue.inherited => none

/-- Interpolation of a possibly undefined string into a template literal. -/
def interpolate : Option String → String
  | some s => s
  | none => "undefined"

/-- The badge markup built from a label and a class. -/
def badge (text cls : String) : String :=
  "<span class=\"badge " ++ cls ++ "\">" ++ text ++ "</span>"

/-- The template literal assigned to `statusHtml` (line 284). -/
def statusHtml (status : Option String) : String :=
  badge (interpolate (statusInfo status).text) (interpolate (statusInfo status).cls)

/-- The template literal assigned to `formattedTime` (lines 265-266): the two
times, separated by a dash, a line break and the indentation of the second
source line. -/
def formattedTime (L : Locale) (startDate endDate : Int) : String :=
  L.toLocaleTimeString startDate ++ " - \n" ++ String.mk (List.replicate 27 ' ')
    ++ L.toLocaleTimeString endDate

/-- Model of `showAppointmentDetails(event)` (calendar.js, lines 254-301).
An assignment through a `getElementById` result that is `null` raises a
`TypeError`; what was written before it stays written. -/
def showAppointmentDetails (L : Locale) (event : CalendarEvent) (doc : ModalDocument) :
    ModalDocument × Completion :=
  if doc.appointmentModal = false then (doc, Completion.normal)
  else
    let startDate := newDate event.start
    let endDate := newDate event.finish
    let formattedDate := L.toLocaleDateString startDate
    let time := formattedTime L startDate endDate
    match doc.modalClientName with
    | none => (doc, Completion.throw JsError.typeError)
    | some _ =>
    let doc1 := { doc with
      modalClientName := some (orString event.extendedProps.clientName "No disponible") }
    match doc1.modalDate with
    | none => (doc1, Completion.throw JsError.typeError)
    | some _ =>
    let doc2 := { doc1 with modalDate := some formattedDate }
    match doc2.modalTime with
    | none => (doc2, Completion.throw JsError.typeError)
    | some _ =>
    let doc3 := { doc2 with modalTime := some time }
    match doc3.modalStatus with
    | none => (doc3, Completion.throw JsError.typeError)
    | some _ =>
    let doc4 := { doc3 with modalStatus := some (statusHtml event.extendedProps.status) }
    match doc4.modalNotes with
    | none => (doc4, Completion.throw JsError.typeError)
    | some _ =>
    let doc5 := { doc4 with modalNotes := some (orString event.extendedProps.notes "Sin notas") }
    let doc6 :=
      match doc5.modalEditLink with
      | some _ =>
        { doc5 with modalEditLink := some ("/professional/update_appointment/" ++ event.id) }
      | none => doc5
    ({ doc6 with modalShown := doc6.modalShown + 1 }, Completion.normal)

/-! ## calendar.js: the status filter buttons of the professional calendar -/

/-- A button with class `calendar-filter-btn`. -/
structure FilterButton where
  /-- The attribute `data-filter`, read as `this.dataset.filter`. -/
  filter : Option String
  /-- Whether the class list holds `active`. -/
  active : Bool
  deriving DecidableEq, Repr

/-- The filter buttons of the page and the events the calendar has cached
(`calendar.getEvents()`). -/
structure ProfessionalPage where
  filterButtons : List FilterButton
  events : List CalendarEvent
  deriving DecidableEq, Repr

/-- The call `event.setProp('display', value)`. -/
def CalendarEvent.setDisplay (event : CalendarEvent) (value : String) : CalendarEvent :=
  { event with display := value }

/-- The filtering branch of the click listener (lines 143-150). -/
def applyFilter (filterValue : Option String) (events : List CalendarEvent) :
    List CalendarEvent :=
  if filterValue = some "all" then
    events.map (fun event => event.setDisplay "auto")
  else
    events.map (fun event =>
      event.setDisplay (if event.extendedProps.status = filterValue then "auto" else "none"))

/-- The click listener of the filter button at position `i` (lines 132-151);
a position with no button has no listener. -/
def filterButtonClick (i : Nat) (page : ProfessionalPage) : ProfessionalPage :=
  match page.filterButtons.get? i with
  | none => page
  | some button =>
    let cleared := page.filterButtons.map (fun btn => { btn with active := false })
    let marked := cleared.modify (fun btn => { btn with active := true }) i
    { filterButtons := marked
      events := applyFilter button.filter page.events }

/-! ## calendar.js: configuration objects -/

/-- JavaScript values as far as the configuration objects need them. Objects
are references into a heap; a function value is named after the place where the
source writes it. -/
inductive JsVal where
  | undefined
  | null
  | bool (b : Bool)
  | num (n : Int)
  | str (s : String)
  | ref (addr : Nat)
  | fn (name : String)
  | date (t : Int)
  deriving DecidableEq, Repr

/-- Truthiness, as `||` tests it. -/
def JsVal.truthy : JsVal → Bool
  | JsVal.undefined => false
  | JsVal.null => false
  | JsVal.bool b => b
  | JsVal.num n => n != 0
  | JsVal.str s => s != ""
  | JsVal.ref _ => true
  | JsVal.fn _ => true
  | JsVal.date _ => true

/-- The expression `a || b`. -/
def JsVal.or (a b : JsVal) : JsVal :=
  if a.truthy then a else b

/-- A plain object: its own properties in insertion order. -/
abbrev JsObject := List (String × JsVal)

/-- The store of objects; a reference is a position in it. -/
abbrev Heap := List JsObject

/-- Property read `o.k` on a plain data object: `undefined` when `k` is not an
own property. -/
def JsObject.get (o : JsObject) (k : String) : JsVal :=
  match o.lookup k with
  | some v => v
  | none => JsVal.undefined

/-- Defining property `k` in an object literal: an existing key keeps its place
and takes the new value, a new key goes last. -/
def JsObject.set : JsObject → String → JsVal → JsObject
  | [], k, v => [(k, v)]
  | (k0, v0) :: rest, k, v =>
    if k0 = k then (k, v) :: rest else (k0, v0) :: JsObject.set rest k v

/-- An object literal `{ ...spread, k1: v1, k2: v2, ... }`: the properties are
defined from left to right on a copy of the spread properties. -/
def objectLiteral (spread : JsObject) (props : List (String × JsVal)) : JsObject :=
  props.foldl (fun o kv => o.set kv.1 kv.2) spread

/-- Allocation of a fresh object: the store grows at its end, nothing already
in it moves. -/
def alloc (heap : Heap) (o : JsObject) : Heap × Nat :=
  (heap ++ [o], heap.length)

/-- The object stored at a reference (no properties when there is none). -/
def deref (heap : Heap) (addr : Nat) : JsObject :=
  match heap.get? addr with
  | some o => o
  | none => []

/-- Which branch of the dispatcher built a calendar. -/
inductive CalendarKind where
  | professional
  | booking
  | profile
  | generic
  deriving DecidableEq, Repr

/-- A calendar produced by `new FullCalendar.Calendar(calendarEl, options)`. -/
structure Calendar where
  kind : CalendarKind
  /-- Reference to the options object handed to the constructor. -/
  options : Nat
  /-- Whether `render()` has been called. -/
  rendered : Bool
  deriving DecidableEq, Repr

/-- Listeners the calendar code registers. -/
inductive Listener where
  | refreshClick
  | filterClick (button : Nat)
  | windowResize
  deriving DecidableEq, Repr

/-- The element with id `calendar`. -/
structure CalendarEl where
  /-- The attribute `data-events-url`, read as `calendarEl.dataset.eventsUrl`. -/
  eventsUrl : Option String
  deriving DecidableEq, Repr

/-- What the calendar bootstrapper reads from the page. -/
structure Page where
  /-- Result of `document.getElementById('calendar')`. -/
  calendarEl : Option CalendarEl
  /-- The value `window.location.pathname`. -/
  pathname : String
  /-- The global `window.businessHours`; `undefined` when the page sets none. -/
  businessHours : JsVal
  /-- Whether an element with id `refresh-calendar` exists. -/
  refreshBtn : Bool
  /-- Number of elements with class `calendar-filter-btn`. -/
  filterButtons : Nat
  /-- The instant `new Date()` reads. -/
  now : Int
  deriving DecidableEq, Repr

/-- What the calendar bootstrapper builds. -/
structure World where
  heap : Heap
  /-- Calendars constructed so far, oldest first. -/
  calendars : List Calendar
  /-- Listeners registered so far, oldest first. -/
  listeners : List Listener
  deriving DecidableEq, Repr

/-- The object literal `calendarConfig` (lines 10-73), allocated with its nested
literals; returns the new store and the reference to the configuration. -/
def calendarConfig (heap : Heap) : Heap × Nat :=
  let (h1, headerToolbar) := alloc heap
    (objectLiteral [] [("left", JsVal.str "prev,next today"), ("center", JsVal.str "title"),
      ("right", JsVal.str "dayGridMonth,timeGridWeek,timeGridDay,listWeek")])
  let (h2, eventTimeFormat) := alloc h1
    (objectLiteral [] [("hour", JsVal.str "2-digit"), ("minute", JsVal.str "2-digit"),
      ("hour12", JsVal.bool false)])
  let (h3, slotLabelFormat) := alloc h2
    (objectLiteral [] [("hour", JsVal.str "2-digit"), ("minute", JsVal.str "2-digit"),
      ("hour12", JsVal.bool false)])
  let (h4, timeGrid) := alloc h3
    (objectLiteral [] [("dayMaxEventRows", JsVal.num 6), ("dayMinWidth", JsVal.num 100),
      ("slotDuration", JsVal.str "00:30:00"), ("slotLabelFormat", JsVal.ref slotLabelFormat)])
  let (h5, views) := alloc h4 (objectLiteral [] [("timeGrid", JsVal.ref timeGrid)])
  let (h6, buttonText) := alloc h5
    (objectLiteral [] [("today", JsVal.str "Hoy"), ("month", JsVal.str "Mes"),
      ("week", JsVal.str "Semana"), ("day", JsVal.str "Día"), ("list", JsVal.str "Lista")])
  let (h7, buttonIcons) := alloc h6
    (objectLiteral [] [("prev", JsVal.str "chevron-left"), ("next", JsVal.str "chevron-right")])
  alloc h7
    (objectLiteral [] [
      ("initialView", JsVal.str "dayGridMonth"),
      ("headerToolbar", JsVal.ref headerToolbar),
      ("locale", JsVal.str "es"),
      ("firstDay", JsVal.num 1),
      ("businessHours", JsVal.bool true),
      ("navLinks", JsVal.bool true),
      ("editable", JsVal.bool false),
      ("dayMaxEvents", JsVal.bool true),
      ("eventTimeFormat", JsVal.ref eventTimeFormat),
      ("views", JsVal.ref views),
      ("height", JsVal.str "auto"),
      ("themeSystem", JsVal.str "bootstrap"),
      ("nowIndicator", JsVal.bool true),
      ("weekNumbers", JsVal.bool false),
      ("buttonText", JsVal.ref buttonText),
      ("buttonIcons", JsVal.ref buttonIcons),
      ("allDayText", JsVal.str "Todo el día"),
      ("noEventsText", JsVal.str "No hay eventos para mostrar"),
      ("eventClassNames", JsVal.fn "calendarConfig.eventClassNames"),
      ("eventDidMount", JsVal.fn "calendarConfig.eventDidMount")])

/-- The properties the literal `professionalConfig` writes after the spread
(lines 104-114). -/
def professionalOverrides (eventsUrl : String) (windowBusinessHours : JsVal)
    (base : JsObject) : List (String × JsVal) :=
  [("initialView", JsVal.str "timeGridWeek"),
   ("events", JsVal.str eventsUrl),
   ("eventClick", JsVal.fn "professionalConfig.eventClick"),
   ("dateClick", JsVal.fn "professionalConfig.dateClick"),
   ("businessHours", windowBusinessHours.or (base.get "businessHours"))]

/-- The properties the literal `bookingConfig` writes after the spread
(lines 171-185); `validRange` refers to the nested literal. -/
def bookingOverrides (validRange : Nat) : List (String × JsVal) :=
  [("initialView", JsVal.str "dayGridWeek"),
   ("selectable", JsVal.bool true),
   ("unselectAuto", JsVal.bool false),
   ("select", JsVal.fn "bookingConfig.select"),
   ("dateClick", JsVal.fn "bookingConfig.dateClick"),
   ("validRange", JsVal.ref validRange)]

/-- The properties the literal `profileConfig` writes after the spread
(lines 204-217); `headerToolbar` and `duration` refer to the nested literals. -/
def profileOverrides (headerToolbar duration : Nat) : List (String × JsVal) :=
  [("initialView", JsVal.str "dayGridWeek"),
   ("headerToolbar", JsVal.ref headerToolbar),
   ("height", JsVal.str "auto"),
   ("contentHeight", JsVal.num 350),
   ("dayMaxEvents", JsVal.num 0),
   ("selectable", JsVal.bool false),
   ("navLinks", JsVal.bool false),
   ("duration", JsVal.ref duration)]

/-- The statements `new FullCalendar.Calendar(calendarEl, options)` and
`calendar.render()`. -/
def constructAndRender (kind : CalendarKind) (options : Nat) (w : World) : World :=
  { w with calendars := w.calendars ++ [{ kind := kind, options := options, rendered := true }] }

/-- Model of `initializeProfessionalCalendar(calendarEl, baseConfig)` (lines
97-160); returns the new world and the reference to `professionalConfig`. -/
def initializeProfessionalCalendar (page : Page) (calendarEl : CalendarEl) (baseConfig : Nat)
    (w : World) : World × Nat :=
  let eventsUrl := orString calendarEl.eventsUrl "/professional/api/appointments"
  let base := deref w.heap baseConfig
  let (h1, professionalConfig) := alloc w.heap
    (objectLiteral base (professionalOverrides eventsUrl page.businessHours base))
  let w1 := constructAndRender CalendarKind.professional professionalConfig { w with heap := h1 }
  let w2 :=
    if page.refreshBtn then { w1 with listeners := w1.listeners ++ [Listener.refreshClick] }
    else w1
  let w3 := { w2 with
    listeners := w2.listeners ++ (List.range page.filterButtons).map Listener.filterClick }
  ({ w3 with listeners := w3.listeners ++ [Listener.windowResize] }, professionalConfig)

/-- Model of `initializeBookingCalendar(calendarEl, baseConfig)` (lines 167-193). -/
def initializeBookingCalendar (page : Page) (baseConfig : Nat) (w : World) : World × Nat :=
  let base := deref w.heap baseConfig
  let (h1, validRange) := alloc w.heap (objectLiteral [] [("start", JsVal.date page.now)])
  let (h2, bookingConfig) := alloc h1 (objectLiteral base (bookingOverrides validRange))
  (constructAndRender CalendarKind.booking bookingConfig { w with heap := h2 }, bookingConfig)

/-- Model of `initializeProfileCalendar(calendarEl, baseConfig)` (lines 200-225). -/
def initializeProfileCalendar (baseConfig : Nat) (w : World) : World × Nat :=
  let base := deref w.heap baseConfig
  let (h1, headerToolbar) := alloc w.heap
    (objectLiteral [] [("left", JsVal.str ""), ("center", JsVal.str "title"),
      ("right", JsVal.str "")])
  let (h2, duration) := alloc h1 (objectLiteral [] [("weeks", JsVal.num 2)])
  let (h3, profileConfig) := alloc h2 (objectLiteral base (profileOverrides headerToolbar duration))
  (constructAndRender CalendarKind.profile profileConfig { w with heap := h3 }, profileConfig)

/-- Model of the `DOMContentLoaded` listener of calendar.js (lines 4-90). -/
def calendarOnDOMContentLoaded (page : Page) (w : World) : World × Completion :=
  match page.calendarEl with
  | none => (w, Completion.normal)
  | some calendarEl =>
    let (h1, config) := calendarConfig w.heap
    let w1 := { w with heap := h1 }
    if includes page.pathname "/professional/calendar" then
      ((initializeProfessionalCalendar page calendarEl config w1).1, Completion.normal)
    else if includes page.pathname "/book_appointment" then
      ((initializeBookingCalendar page config w1).1, Completion.normal)
    else if includes page.pathname "/professional_profile" then
      ((initializeProfileCalendar config w1).1, Completion.normal)
    else
      (constructAndRender CalendarKind.generic config w1, Completion.normal)

/-! ## main.js: alert auto-dismissal and the scroll observer -/

/-- An element of the page; its identity is its position in document order. -/
structure DomElement where
  classList : List String
  deriving DecidableEq, Repr

/-- An `IntersectionObserverEntry`: the target and whether it intersects. -/
structure Entry where
  target : Nat
  isIntersecting : Bool
  deriving DecidableEq, Repr

/-- The state main.js works on. -/
structure MainState where
  /-- The elements of the page, in document order. -/
  elements : List DomElement
  /-- Targets of the scroll observer; `none` when no observer was created. -/
  observed : Option (List Nat)
  /-- Delays, in milliseconds, of the timers set with `setTimeout`. -/
  timers : List Nat
  /-- Alerts on which `close()` has been called, oldest first. -/
  closed : List Nat
  deriving DecidableEq, Repr

/-- Positions of the elements satisfying a test: `querySelectorAll` in
document order. -/
def querySelectorAll (test : DomElement → Bool) (elements : List DomElement) : List Nat :=
  (List.range elements.length).filter (fun i =>
    match elements.get? i with
    | some el => test el
    | none => false)

/-- The selector `.alert:not(.alert-permanent)`. -/
def isDismissibleAlert (el : DomElement) : Bool :=
  el.classList.contains "alert" && !el.classList.contains "alert-permanent"

/-- The selector `.animate-on-scroll`. -/
def isAnimateOnScroll (el : DomElement) : Bool :=
  el.classList.contains "animate-on-scroll"

/-- The delay passed to `setTimeout` (line 23). -/
def alertDismissDelay : Nat := 5000

/-- The method `classList.add(cls)`: a class already present is not added again. -/
def DomElement.addClass (el : DomElement) (cls : String) : DomElement :=
  if el.classList.contains cls then el else { classList := el.classList ++ [cls] }

/-- Whether the element at position `e` carries class `cls`. -/
def MainState.hasClass (s : MainState) (e : Nat) (cls : String) : Bool :=
  match s.elements.get? e with
  | some el => el.classList.contains cls
  | none => false

/-- Whether position `e` is a target of the observer. -/
def MainState.isObserved (s : MainState) (e : Nat) : Bool :=
  match s.observed with
  | some targets => targets.contains e
  | none => false

/-- The part of the `DOMContentLoaded` listener of main.js that sets the
dismissal timer and creates the scroll observer (lines 16-43). -/
def mainOnDOMContentLoaded (elements : List DomElement) : MainState :=
  let animatedElements := querySelectorAll isAnimateOnScroll elements
  { elements := elements
    observed := if animatedElements.length > 0 then some animatedElements else none
    timers := [alertDismissDelay]
    closed := [] }

/-- The timer callback (lines 17-23): close every element the selector finds
when the timer fires. -/
def dismissAlerts (s : MainState) : MainState :=
  let alerts := querySelectorAll isDismissibleAlert s.elements
  alerts.foldl (fun st alert => { st with closed := st.closed ++ [alert] }) s

/-- The body of the observer callback for one entry (lines 31-34). -/
def handleEntry (s : MainState) (entry : Entry) : MainState :=
  if entry.isIntersecting then
    { s with
      elements := s.elements.modify (fun el => el.addClass "animate-fade-in") entry.target
      observed := s.observed.map (fun targets => targets.filter (fun t => t != entry.target)) }
  else s

/-- The observer callback (lines 29-35) on one notification. -/
def observerCallback (s : MainState) (entries : List Entry) : MainState :=
  entries.foldl handleEntry s

/-- The state after the first `k` notifications of a sequence. -/
def stateAfter (notifications : List (List Entry)) (s : MainState) (k : Nat) : MainState :=
  (notifications.take k).foldl observerCallback s

/-- Whether a notification reports element `e` as intersecting. -/
def reports (entries : List Entry) (e : Nat) : Bool :=
  entries.any (fun entry => entry.isIntersecting && entry.target == e)

/-- Element `e` receives the animation at notification `k`: it lacks the
class before the notification and carries it afterwards. -/
def receivesAt (notifications : List (List Entry)) (s : MainState) (e k : Nat) : Prop :=
  (stateAfter notifications s k).hasClass e "animate-fade-in" = false ∧
  (stateAfter notifications s (k + 1)).hasClass e "animate-fade-in" = true

/-- Whether notification `k` of a sequence exists and reports element `e` as
intersecting. -/
def reportsAt (notifications : List (List Entry)) (e k : Nat) : Bool :=
  match notifications.get? k with
  | some entries => reports entries e
  | none => false

/-- Notification `k` is the first that reports element `e` as intersecting. -/
def firstReportAt (notifications : List (List Entry)) (e k : Nat) : Prop :=
  reportsAt notifications e k = true ∧ ∀ j, j < k → reportsAt notifications e j = false

instance (notifications : List (List Entry)) (s : MainState) (e k : Nat) :
    Decidable (receivesAt notifications s e k) := by
  unfold receivesAt
  infer_instance

instance (notifications : List (List Entry)) (e k : Nat) :
    Decidable (firstReportAt notifications e k) := by
  unfold firstReportAt
  infer_instance

/-! ## Concrete pages and events used to evaluate the definitions -/

/-- A locale stub that writes an instant as its number of milliseconds. -/
def sampleLocale : Locale :=
  { toLocaleDateString := fun t => toString t
    toLocaleTimeString := fun t => toString t }

/-- A page holding the modal, its five fields and the edit link. -/
def fullModal : ModalDocument :=
  { appointmentModal := true
    modalClientName := some ""
    modalDate := some ""
    modalTime := some ""
    modalStatus := some ""
    modalNotes := some ""
    modalEditLink := some "#"
    modalShown := 0 }

/-- A page holding the modal and all its targets except `modalClientName`. -/
def modalWithoutClientName : ModalDocument :=
  { fullModal with modalClientName := none }

/-- An event with the given status. -/
def eventWithStatus (status : Option String) : CalendarEvent :=
  { id := "42"
    start := some 0
    finish := some 1800000
    extendedProps := { clientName := some "Ana", status := status, notes := none }
    display := "auto" }

/-- A page without a date field in which a tab matches every selector. -/
def pageWithTabOnly : BookingDocument :=
  { dateInput := none
    querySelector := fun _ => Except.ok (some 3)
    log := [] }

/-- A page with an empty date field and no tab. -/
def pageWithDateField : BookingDocument :=
  { dateInput := some ""
    querySelector := fun _ => Except.ok none
    log := [] }

/-- A store with nothing allocated, no calendar and no listener. -/
def emptyWorld : World :=
  { heap := [], calendars := [], listeners := [] }

/-- A page with the calendar container whose path contains both
`/professional/calendar` and `/book_appointment`. -/
def overlappingPage : Page :=
  { calendarEl := some { eventsUrl := none }
    pathname := "/book_appointment/professional/calendar"
    businessHours := JsVal.undefined
    refreshBtn := false
    filterButtons := 0
    now := 0 }

/-- A page of the professional calendar path that has no calendar container. -/
def pageWithoutCalendar : Page :=
  { overlappingPage with calendarEl := none, pathname := "/professional/calendar" }

/-- The object `professionalConfig` refers to once
`initializeProfessionalCalendar` has returned. -/
def professionalConfigOf (page : Page) (calendarEl : CalendarEl) (baseConfig : Nat)
    (w : World) : JsObject :=
  deref (initializeProfessionalCalendar page calendarEl baseConfig w).1.heap
    (initializeProfessionalCalendar page calendarEl baseConfig w).2

/-- The object `bookingConfig` refers to once `initializeBookingCalendar` has
returned. -/
def bookingConfigOf (page : Page) (baseConfig : Nat) (w : World) : JsObject :=
  deref (initializeBookingCalendar page baseConfig w).1.heap
    (initializeBookingCalendar page baseConfig w).2

/-- The object `profileConfig` refers to once `initializeProfileCalendar` has
returned. -/
def profileConfigOf (baseConfig : Nat) (w : World) : JsObject :=
  deref (initializeProfileCalendar baseConfig w).1.heap
    (initializeProfileCalendar baseConfig w).2

/-- The store after the base template `calendarConfig` has been built in an
empty one. -/
def templateWorld : World :=
  { emptyWorld with heap := (calendarConfig []).1 }

/-- The reference to the base template in `templateWorld`. -/
def templateRef : Nat := (calendarConfig []).2

/-- A page of the professional calendar whose global `businessHours` is `false`. -/
def pageWithBusinessHoursOff : Page :=
  { overlappingPage with pathname := "/professional/calendar", businessHours := JsVal.bool false }

/-- A page with two elements tagged for the scroll animation, after load. -/
def scrollPage : MainState :=
  mainOnDOMContentLoaded
    [{ classList := ["card", "animate-on-scroll"] }, { classList := ["animate-on-scroll"] }]

/-- Three notifications: the second element becomes visible first, then the
first element is reported visible twice. -/
def scrollNotifications : List (List Entry) :=
  [[{ target := 0, isIntersecting := false }, { target := 1, isIntersecting := true }],
   [{ target := 0, isIntersecting := true }],
   [{ target := 0, isIntersecting := true }]]

/-! ## Lemmas on `split` -/

theorem splitChars_ne_nil (sep : Char) (cs : List Char) : splitChars sep cs ≠ [] := by
  cases cs with
  | nil => simp [splitChars]
  | cons c cs =>
    simp only [splitChars]
    split
    · simp
    · split <;> simp

theorem splitChars_head (sep : Char) (cs : List Char) :
    (splitChars sep cs).head? = some (cs.takeWhile (fun c => c != sep)) := by
  induction cs with
  | nil => simp [splitChars]
  | cons c cs ih =>
    simp only [splitChars]
    by_cases h : c = sep
    · simp [h]
    · simp only [h, if_false]
      cases hs : splitChars sep cs with
      | nil => exact absurd hs (splitChars_ne_nil sep cs)
      | cons seg rest =>
        rw [hs] at ih
        simp at ih
        have hc : (c != sep) = true := by simp [h]
        simp [List.takeWhile_cons, hc, ih]

/-- Joining the segments with the separator gives the string back. -/
theorem splitChars_join (sep : Char) (cs : List Char) :
    List.intercalate [sep] (splitChars sep cs) = cs := by
  induction cs with
  | nil => simp [splitChars, List.intercalate]
  | cons c cs ih =>
    simp only [splitChars]
    by_cases h : c = sep
    · simp only [h, if_true]
      cases hs : splitChars sep cs with
      | nil => exact absurd hs (splitChars_ne_nil sep cs)
      | cons seg rest =>
        rw [hs] at ih
        simp [List.intercalate, List.intersperse] at ih ⊢
        exact ih
    · simp only [h, if_false]
      cases hs : splitChars sep cs with
      | nil => exact absurd hs (splitChars_ne_nil sep cs)
      | cons seg rest =>
        rw [hs] at ih
        cases rest with
        | nil => simp [List.intercalate, List.intersperse] at ih ⊢; exact ih
        | cons r rs => simp [List.intercalate, List.intersperse] at ih ⊢; exact ih

/-- No segment contains the separator. -/
theorem splitChars_no_sep (sep : Char) (cs : List Char) :
    ∀ seg ∈ splitChars sep cs, sep ∉ seg := by
  induction cs with
  | nil => simp [splitChars]
  | cons c cs ih =>
    simp only [splitChars]
    by_cases h : c = sep
    · simp only [h, if_true]
      intro seg hseg
      rcases List.mem_cons.mp hseg with rfl | hmem
      · simp
      · exact ih seg hmem
    · simp only [h, if_false]
      cases hs : splitChars sep cs with
      | nil => exact absurd hs (splitChars_ne_nil sep cs)
      | cons seg rest =>
        rw [hs] at ih
        intro s hsmem
        rcases List.mem_cons.mp hsmem with rfl | hmem
        · have := ih seg (List.mem_cons_self _ _)
          simp only [List.mem_cons, not_or]
          exact ⟨fun e => h e.symm, this⟩
        · exact ih s (List.mem_cons_of_mem _ hmem)

theorem datePortion_eq (dateStr : String) :
    datePortion dateStr = String.mk (dateStr.data.takeWhile (fun c => c != 'T')) := by
  unfold datePortion split indexToString
  have h := splitChars_head 'T' dateStr.data
  cases hs : splitChars 'T' dateStr.data with
  | nil => exact absurd hs (splitChars_ne_nil _ _)
  | cons seg rest =>
    rw [hs] at h
    simp at h
    simp [h]

/-! ## `selectBookingDate` -/

/-- C2: when the field with id `date` exists, `selectBookingDate(dateStr)`
leaves in it exactly the characters of `dateStr` before the first `T` (all of
`dateStr` when it has no `T`): the value has no `T`, it is `dateStr` cut at its
first `T`, and the write is the first effect of the call. This holds for every
string, so for every ISO-8601 date with or without a time suffix. -/
theorem selectBookingDate_writes_date_portion (dateStr : String) (doc : BookingDocument)
    (old : String) (h : doc.dateInput = some old) :
    ∃ v : String,
      (selectBookingDate dateStr doc).1.dateInput = some v ∧
      v.data = dateStr.data.takeWhile (fun c => c != 'T') ∧
      'T' ∉ v.data ∧
      ('T' ∉ dateStr.data → v = dateStr) ∧
      (dateStr.data = v.data ∨ ∃ rest, dateStr.data = v.data ++ 'T' :: rest) ∧
      ∃ later, (selectBookingDate dateStr doc).1.log
        = doc.log ++ BookingEffect.setValue v :: later := by
  refine ⟨datePortion dateStr, ?_, ?_, ?_, ?_, ?_, ?_⟩
  · unfold selectBookingDate
    rw [h]
    dsimp only
    split <;> rfl
  · rw [datePortion_eq]
  · rw [datePortion_eq]
    intro hmem
    have := List.mem_takeWhile_imp hmem
    simp at this
  · intro hno
    rw [datePortion_eq]
    have : dateStr.data.takeWhile (fun c => c != 'T') = dateStr.data := by
      rw [List.takeWhile_eq_self_iff]
      intro c hc
      have : c ≠ 'T' := fun e => hno (e ▸ hc)
      simpa using this
    rw [this]
  · rw [datePortion_eq]
    have hsplit := List.takeWhile_append_dropWhile (fun c => c != 'T') dateStr.data
    cases hd : dateStr.data.dropWhile (fun c => c != 'T') with
    | nil =>
      left
      rw [hd] at hsplit
      simpa using hsplit.symm
    | cons c rest =>
      right
      have hc : (c != 'T') = false := by
        have := List.head_dropWhile_not (fun c => c != 'T') dateStr.data
          (by rw [hd]; simp)
        simpa [hd] using this
      have hc2 : c = 'T' := by simpa using hc
      refine ⟨rest, ?_⟩
      rw [hd, hc2] at hsplit
      exact hsplit.symm
  · unfold selectBookingDate
    rw [h]
    dsimp only
    split
    · exact ⟨[BookingEffect.dispatchChange], by simp⟩
    · exact ⟨[BookingEffect.dispatchChange], by simp⟩
    · rename_i _ tab _
      exact ⟨[BookingEffect.dispatchChange, BookingEffect.showTab tab], by simp⟩

/-- Witness of C2: a date with a time suffix, on a page with the date field. -/
theorem selectBookingDate_writes_date_portion_witness :
    pageWithDateField.dateInput = some "" ∧
    ∃ v : String,
      (selectBookingDate "2024-05-17T09:30:00" pageWithDateField).1.dateInput = some v ∧
      v.data = "2024-05-17T09:30:00".data.takeWhile (fun c => c != 'T') ∧
      'T' ∉ v.data ∧
      ('T' ∉ "2024-05-17T09:30:00".data → v = "2024-05-17T09:30:00") ∧
      ("2024-05-17T09:30:00".data = v.data ∨
        ∃ rest, "2024-05-17T09:30:00".data = v.data ++ 'T' :: rest) ∧
      ∃ later, (selectBookingDate "2024-05-17T09:30:00" pageWithDateField).1.log
        = pageWithDateField.log ++ BookingEffect.setValue v :: later :=
  ⟨rfl, selectBookingDate_writes_date_portion "2024-05-17T09:30:00" pageWithDateField "" rfl⟩

/-- C7: when no element with id `date` exists, `selectBookingDate(dateStr)`
returns normally and leaves the page as it was: no field is written, no change
event is dispatched and no tab is shown, whatever the selector engine would
find. -/
theorem selectBookingDate_noop_without_field (dateStr : String) (doc : BookingDocument)
    (h : doc.dateInput = none) :
    selectBookingDate dateStr doc = (doc, Completion.normal) ∧
    (selectBookingDate dateStr doc).1.log = doc.log ∧
    (selectBookingDate dateStr doc).1.dateInput = none := by
  unfold selectBookingDate
  rw [h]
  exact ⟨rfl, rfl, h⟩

/-- Witness of C7: a page without the field on which a matching tab exists. -/
theorem selectBookingDate_noop_without_field_witness :
    pageWithTabOnly.dateInput = none ∧
    selectBookingDate "2024-05-17T09:30:00" pageWithTabOnly
      = (pageWithTabOnly, Completion.normal) ∧
    (selectBookingDate "2024-05-17T09:30:00" pageWithTabOnly).1.log = pageWithTabOnly.log ∧
    (selectBookingDate "2024-05-17T09:30:00" pageWithTabOnly).1.dateInput = none :=
  ⟨rfl, selectBookingDate_noop_without_field "2024-05-17T09:30:00" pageWithTabOnly rfl⟩

/-! ## `showAppointmentDetails` -/

/-- The four statuses written in `statusMap` give their configured badge. -/
theorem statusHtml_known :
    statusHtml (some "pending") = badge "Pendiente" "bg-warning" ∧
    statusHtml (some "confirmed") = badge "Confirmada" "bg-success" ∧
    statusHtml (some "cancelled") = badge "Cancelada" "bg-danger" ∧
    statusHtml (some "completed") = badge "Completada" "bg-info" := by
  refine ⟨?_, ?_, ?_, ?_⟩ <;> rfl

/-- A missing status gives the fallback badge. -/
theorem statusHtml_missing :
    statusHtml none = badge "Desconocido" "bg-secondary" := by
  rfl

/-- A status that is neither one of the four keys nor the name of a member of
`Object.prototype` gives the fallback badge; so does a missing status. -/
theorem statusHtml_fallback (status : Option String)
    (hown : statusMapOwn.lookup (toPropertyKey status) = none)
    (hproto : objectPrototypeKeys.contains (toPropertyKey status) = false) :
    statusHtml status = badge "Desconocido" "bg-secondary" := by
  simp only [statusHtml, statusInfo, statusMapGet, hown, hproto]
  rfl

/-- With the modal and its five fields present, the markup written into
`modalStatus` is `statusHtml` of the event status, and the call returns. -/
theorem showAppointmentDetails_writes_status (L : Locale) (event : CalendarEvent)
    (doc : ModalDocument) (hm : doc.appointmentModal = true)
    (h1 : doc.modalClientName.isSome = true) (h2 : doc.modalDate.isSome = true)
    (h3 : doc.modalTime.isSome = true) (h4 : doc.modalStatus.isSome = true)
    (h5 : doc.modalNotes.isSome = true) :
    (showAppointmentDetails L event doc).1.modalStatus
      = some (statusHtml event.extendedProps.status) ∧
    (showAppointmentDetails L event doc).2 = Completion.normal := by
  obtain ⟨a, ha⟩ := Option.isSome_iff_exists.mp h1
  obtain ⟨b, hb⟩ := Option.isSome_iff_exists.mp h2
  obtain ⟨c, hc⟩ := Option.isSome_iff_exists.mp h3
  obtain ⟨d, hd⟩ := Option.isSome_iff_exists.mp h4
  obtain ⟨e, he⟩ := Option.isSome_iff_exists.mp h5
  unfold showAppointmentDetails
  simp only [hm, ha, hb, hc, hd, he]
  cases hl : doc.modalEditLink <;> simp

/-- C1, evaluated where the code departs from it: for the status
`constructor`, on a page with the modal and all its fields, the read
`statusMap[status]` finds the member inherited from `Object.prototype`, the
fallback is not taken, and the badge written into `modalStatus` carries the text
`undefined` and the class `undefined` instead of `Desconocido` and
`bg-secondary`. -/
theorem showAppointmentDetails_constructor_status :
    (showAppointmentDetails sampleLocale (eventWithStatus (some "constructor")) fullModal).1.modalStatus
      = some "<span class=\"badge undefined\">undefined</span>" ∧
    (showAppointmentDetails sampleLocale (eventWithStatus (some "constructor")) fullModal).1.modalStatus
      ≠ some (badge "Desconocido" "bg-secondary") ∧
    (showAppointmentDetails sampleLocale (eventWithStatus (some "constructor")) fullModal).2
      = Completion.normal := by
  refine ⟨rfl, ?_, rfl⟩
  decide

/-- When the modal container is absent the call returns and changes nothing. -/
theorem showAppointmentDetails_noop_without_modal (L : Locale) (event : CalendarEvent)
    (doc : ModalDocument) (hm : doc.appointmentModal = false) :
    showAppointmentDetails L event doc = (doc, Completion.normal) := by
  simp [showAppointmentDetails, hm]

/-- With the modal present, the first of the five fields that is missing makes
the call raise a `TypeError`; only the edit link may be missing. -/
theorem showAppointmentDetails_throws_on_missing_field (L : Locale) (event : CalendarEvent)
    (doc : ModalDocument) (hm : doc.appointmentModal = true)
    (hmissing : doc.modalClientName = none ∨ doc.modalDate = none ∨ doc.modalTime = none ∨
      doc.modalStatus = none ∨ doc.modalNotes = none) :
    (showAppointmentDetails L event doc).2 = Completion.throw JsError.typeError := by
  unfold showAppointmentDetails
  simp only [hm]
  cases h1 : doc.modalClientName with
  | none => simp
  | some a =>
    cases h2 : doc.modalDate with
    | none => simp
    | some b =>
      cases h3 : doc.modalTime with
      | none => simp
      | some c =>
        cases h4 : doc.modalStatus with
        | none => simp
        | some d =>
          cases h5 : doc.modalNotes with
          | none => simp
          | some e => simp [h1, h2, h3, h4, h5] at hmissing

/-- C6, evaluated where the code departs from it: on a page that has the modal
but no element with id `modalClientName`, the call raises a `TypeError` instead
of skipping the write; nothing has been written and the modal is not opened. -/
theorem showAppointmentDetails_missing_field_throws :
    showAppointmentDetails sampleLocale (eventWithStatus (some "pending")) modalWithoutClientName
      = (modalWithoutClientName, Completion.throw JsError.typeError) := by
  rfl

/-! ## Status filter buttons -/

/-- C3: a click on the filter button at position `i` keeps the cached events
in place and rewrites only their display flag: to `auto` for every event when
the button carries `data-filter="all"`; for any other filter value, to `auto`
exactly for the events whose status equals the filter value and to `none` for
the others. The flags before the click play no part. -/
theorem filterButtonClick_display (page : ProfessionalPage) (i : Nat) (button : FilterButton)
    (hb : page.filterButtons.get? i = some button) :
    (filterButtonClick i page).events.length = page.events.length ∧
    ∀ j event, page.events.get? j = some event →
      ∃ shown, (filterButtonClick i page).events.get? j = some { event with display := shown } ∧
        (button.filter = some "all" → shown = "auto") ∧
        (button.filter ≠ some "all" →
          (shown = "auto" ↔ event.extendedProps.status = button.filter) ∧
          (shown = "none" ↔ event.extendedProps.status ≠ button.filter)) := by
  unfold filterButtonClick
  rw [hb]
  dsimp only
  constructor
  · unfold applyFilter
    split <;> simp
  · intro j event hj
    rw [List.get?_eq_getElem?] at hj
    unfold applyFilter
    by_cases hall : button.filter = some "all"
    · refine ⟨"auto", ?_, fun _ => rfl, fun h => absurd hall h⟩
      simp [hall, hj, CalendarEvent.setDisplay]
    · refine ⟨if event.extendedProps.status = button.filter then "auto" else "none", ?_,
        fun h => absurd h hall, fun _ => ?_⟩
      · simp [hall, hj, CalendarEvent.setDisplay]
      · by_cases hs : event.extendedProps.status = button.filter
        · simp [hs]
        · simp [hs]

/-- Witness of C3: a click on a `confirmed` filter over one confirmed and one
pending event, both hidden before the click. -/
theorem filterButtonClick_display_witness :
    let page : ProfessionalPage :=
      { filterButtons := [{ filter := some "all", active := true },
                          { filter := some "confirmed", active := false }]
        events := [{ eventWithStatus (some "confirmed") with display := "none" },
                   { eventWithStatus (some "pending") with display := "none" }] }
    page.filterButtons.get? 1 = some { filter := some "confirmed", active := false } ∧
    ((filterButtonClick 1 page).events.length = page.events.length ∧
    ∀ j event, page.events.get? j = some event →
      ∃ shown, (filterButtonClick 1 page).events.get? j = some { event with display := shown } ∧
        ((some "confirmed" : Option String) = some "all" → shown = "auto") ∧
        ((some "confirmed" : Option String) ≠ some "all" →
          (shown = "auto" ↔ event.extendedProps.status = some "confirmed") ∧
          (shown = "none" ↔ event.extendedProps.status ≠ some "confirmed"))) := by
  intro page
  exact ⟨rfl, filterButtonClick_display page 1 { filter := some "confirmed", active := false } rfl⟩

/-! ## The context dispatcher -/

theorem includesChars_iff (s needle : List Char) :
    includesChars s needle = true ↔ needle <:+: s := by
  induction s with
  | nil => cases needle <;> simp [includesChars]
  | cons c cs ih =>
    simp only [includesChars, Bool.or_eq_true, ih, List.infix_cons_iff,
      List.isPrefixOf_iff_prefix]

/-- The test `s.includes(needle)` holds exactly when `needle` is a contiguous
part of `s`. -/
theorem includes_iff (s needle : String) :
    includes s needle = true ↔ needle.data <:+: s.data :=
  includesChars_iff s.data needle.data

theorem initializeProfessionalCalendar_calendars (page : Page) (calendarEl : CalendarEl)
    (baseConfig : Nat) (w : World) :
    (initializeProfessionalCalendar page calendarEl baseConfig w).1.calendars
      = w.calendars ++ [{ kind := CalendarKind.professional, options := w.heap.length,
                          rendered := true }] := by
  unfold initializeProfessionalCalendar constructAndRender alloc
  dsimp only
  split <;> rfl

theorem initializeBookingCalendar_calendars (page : Page) (baseConfig : Nat) (w : World) :
    (initializeBookingCalendar page baseConfig w).1.calendars
      = w.calendars ++ [{ kind := CalendarKind.booking, options := w.heap.length + 1,
                          rendered := true }] := by
  simp [initializeBookingCalendar, constructAndRender, alloc]

theorem initializeProfileCalendar_calendars (baseConfig : Nat) (w : World) :
    (initializeProfileCalendar baseConfig w).1.calendars
      = w.calendars ++ [{ kind := CalendarKind.profile, options := w.heap.length + 2,
                          rendered := true }] := by
  simp [initializeProfileCalendar, constructAndRender, alloc]

/-- C4: with the calendar container present, the dispatcher constructs and
renders exactly one calendar and returns; which one is decided by substring
tests on the path, the first that holds winning: the professional calendar when
the path contains `/professional/calendar`, else the booking calendar when it
contains `/book_appointment`, else the profile calendar when it contains
`/professional_profile`, else the generic calendar. -/
theorem dispatcher_first_match (page : Page) (w : World) (calendarEl : CalendarEl)
    (hel : page.calendarEl = some calendarEl) :
    ∃ kind options,
      (calendarOnDOMContentLoaded page w).1.calendars
        = w.calendars ++ [{ kind := kind, options := options, rendered := true }] ∧
      (calendarOnDOMContentLoaded page w).2 = Completion.normal ∧
      ("/professional/calendar".data <:+: page.pathname.data →
        kind = CalendarKind.professional) ∧
      (¬ "/professional/calendar".data <:+: page.pathname.data →
        "/book_appointment".data <:+: page.pathname.data → kind = CalendarKind.booking) ∧
      (¬ "/professional/calendar".data <:+: page.pathname.data →
        ¬ "/book_appointment".data <:+: page.pathname.data →
        "/professional_profile".data <:+: page.pathname.data → kind = CalendarKind.profile) ∧
      (¬ "/professional/calendar".data <:+: page.pathname.data →
        ¬ "/book_appointment".data <:+: page.pathname.data →
        ¬ "/professional_profile".data <:+: page.pathname.data →
        kind = CalendarKind.generic) := by
  have hA := includes_iff page.pathname "/professional/calendar"
  have hB := includes_iff page.pathname "/book_appointment"
  have hC := includes_iff page.pathname "/professional_profile"
  unfold calendarOnDOMContentLoaded
  rw [hel]
  simp only []
  by_cases ha : includes page.pathname "/professional/calendar" = true
  · have hA2 := hA.mp ha
    refine ⟨CalendarKind.professional, (calendarConfig w.heap).1.length, ?_, ?_,
      fun _ => rfl, fun h _ => absurd hA2 h, fun h _ _ => absurd hA2 h,
      fun h _ _ => absurd hA2 h⟩
    · rw [if_pos ha]
      exact initializeProfessionalCalendar_calendars _ _ _ _
    · rw [if_pos ha]
  · have hA2 : ¬ "/professional/calendar".data <:+: page.pathname.data :=
      fun h => ha (hA.mpr h)
    by_cases hb : includes page.pathname "/book_appointment" = true
    · have hB2 := hB.mp hb
      refine ⟨CalendarKind.booking, (calendarConfig w.heap).1.length + 1, ?_, ?_,
        fun h => absurd h hA2, fun _ _ => rfl, fun _ h _ => absurd hB2 h,
        fun _ h _ => absurd hB2 h⟩
      · rw [if_neg ha, if_pos hb]
        exact initializeBookingCalendar_calendars _ _ _
      · rw [if_neg ha, if_pos hb]
    · have hB2 : ¬ "/book_appointment".data <:+: page.pathname.data :=
        fun h => hb (hB.mpr h)
      by_cases hc : includes page.pathname "/professional_profile" = true
      · have hC2 := hC.mp hc
        refine ⟨CalendarKind.profile, (calendarConfig w.heap).1.length + 2, ?_, ?_,
          fun h => absurd h hA2, fun _ h => absurd h hB2, fun _ _ _ => rfl,
          fun _ _ h => absurd hC2 h⟩
        · rw [if_neg ha, if_neg hb, if_pos hc]
          exact initializeProfileCalendar_calendars _ _
        · rw [if_neg ha, if_neg hb, if_pos hc]
      · have hC2 : ¬ "/professional_profile".data <:+: page.pathname.data :=
          fun h => hc (hC.mpr h)
        refine ⟨CalendarKind.generic, (calendarConfig w.heap).2, ?_, ?_,
          fun h => absurd h hA2, fun _ h => absurd h hB2, fun _ _ h => absurd h hC2,
          fun _ _ _ => rfl⟩
        · rw [if_neg ha, if_neg hb, if_neg hc]
          rfl
        · rw [if_neg ha, if_neg hb, if_neg hc]

/-- Witness of C4: a path that contains two of the substrings. -/
theorem dispatcher_first_match_witness :
    overlappingPage.calendarEl = some { eventsUrl := none } ∧
    ∃ kind options,
      (calendarOnDOMContentLoaded overlappingPage emptyWorld).1.calendars
        = emptyWorld.calendars ++ [{ kind := kind, options := options, rendered := true }] ∧
      (calendarOnDOMContentLoaded overlappingPage emptyWorld).2 = Completion.normal ∧
      ("/professional/calendar".data <:+: overlappingPage.pathname.data →
        kind = CalendarKind.professional) ∧
      (¬ "/professional/calendar".data <:+: overlappingPage.pathname.data →
        "/book_appointment".data <:+: overlappingPage.pathname.data →
        kind = CalendarKind.booking) ∧
      (¬ "/professional/calendar".data <:+: overlappingPage.pathname.data →
        ¬ "/book_appointment".data <:+: overlappingPage.pathname.data →
        "/professional_profile".data <:+: overlappingPage.pathname.data →
        kind = CalendarKind.profile) ∧
      (¬ "/professional/calendar".data <:+: overlappingPage.pathname.data →
        ¬ "/book_appointment".data <:+: overlappingPage.pathname.data →
        ¬ "/professional_profile".data <:+: overlappingPage.pathname.data →
        kind = CalendarKind.generic) :=
  ⟨rfl, dispatcher_first_match overlappingPage emptyWorld { eventsUrl := none } rfl⟩

/-- On a path that contains both `/book_appointment` and
`/professional/calendar`, only the professional calendar is built. -/
theorem dispatcher_overlapping_path :
    includes overlappingPage.pathname "/book_appointment" = true ∧
    (calendarOnDOMContentLoaded overlappingPage emptyWorld).1.calendars
      = [{ kind := CalendarKind.professional, options := 8, rendered := true }] := by
  constructor <;> rfl

/-- C5: on a page with no element with id `calendar` the bootstrapper returns
normally and leaves everything as it was, whatever the path: no configuration
object is allocated, no calendar is constructed, no listener is registered. -/
theorem no_calendar_without_container (page : Page) (w : World)
    (h : page.calendarEl = none) :
    calendarOnDOMContentLoaded page w = (w, Completion.normal) ∧
    (calendarOnDOMContentLoaded page w).1.calendars = w.calendars := by
  unfold calendarOnDOMContentLoaded
  rw [h]
  exact ⟨rfl, rfl⟩

/-- Witness of C5: the path of the professional calendar, without a container. -/
theorem no_calendar_without_container_witness :
    pageWithoutCalendar.calendarEl = none ∧
    calendarOnDOMContentLoaded pageWithoutCalendar emptyWorld
      = (emptyWorld, Completion.normal) ∧
    (calendarOnDOMContentLoaded pageWithoutCalendar emptyWorld).1.calendars
      = emptyWorld.calendars :=
  ⟨rfl, no_calendar_without_container pageWithoutCalendar emptyWorld rfl⟩

/-! ## Alert auto-dismissal -/

theorem foldl_closed (alerts : List Nat) (s : MainState) :
    (alerts.foldl (fun st alert => { st with closed := st.closed ++ [alert] }) s).closed
      = s.closed ++ alerts ∧
    (alerts.foldl (fun st alert => { st with closed := st.closed ++ [alert] }) s).elements
      = s.elements := by
  induction alerts generalizing s with
  | nil => simp
  | cons a rest ih =>
    simp only [List.foldl_cons]
    obtain ⟨h1, h2⟩ := ih { s with closed := s.closed ++ [a] }
    exact ⟨by rw [h1]; simp, by rw [h2]⟩

theorem mem_querySelectorAll (test : DomElement → Bool) (elements : List DomElement) (e : Nat) :
    e ∈ querySelectorAll test elements ↔ ∃ el, elements.get? e = some el ∧ test el = true := by
  unfold querySelectorAll
  simp only [List.mem_filter, List.mem_range]
  constructor
  · rintro ⟨_, h⟩
    cases hel : elements.get? e with
    | none =>
      rw [hel] at h
      exact absurd h (by simp)
    | some el =>
      rw [hel] at h
      exact ⟨el, rfl, h⟩
  · rintro ⟨el, hel, ht⟩
    refine ⟨?_, by rw [hel]; exact ht⟩
    rw [List.get?_eq_getElem?] at hel
    exact (List.getElem?_eq_some_iff.mp hel).1

/-- C9: the dismissal timer is set for 5000 ms, and when it fires the alerts it
closes are, each once and in document order, exactly the elements that at that
moment carry the class `alert` and not the class `alert-permanent`; nothing
else is closed, so an element marked permanent never is. -/
theorem dismissAlerts_closes_exactly (s : MainState) (elements : List DomElement) :
    (mainOnDOMContentLoaded elements).timers = [5000] ∧
    ∃ newly,
      (dismissAlerts s).closed = s.closed ++ newly ∧
      newly.Nodup ∧
      (∀ e, e ∈ newly ↔
        ∃ el, s.elements.get? e = some el ∧
          "alert" ∈ el.classList ∧ "alert-permanent" ∉ el.classList) ∧
      (∀ e el, s.elements.get? e = some el → "alert-permanent" ∈ el.classList → e ∉ newly) := by
  refine ⟨rfl, querySelectorAll isDismissibleAlert s.elements, ?_, ?_, ?_, ?_⟩
  · exact (foldl_closed _ s).1
  · exact (List.nodup_range _).filter _
  · intro e
    rw [mem_querySelectorAll]
    simp [isDismissibleAlert]
  · intro e el hel hperm hmem
    rw [mem_querySelectorAll] at hmem
    obtain ⟨el2, hel2, ht⟩ := hmem
    rw [hel] at hel2
    cases hel2
    simp [isDismissibleAlert, hperm] at ht

/-! ## Configuration objects -/

theorem JsObject.get_nil (k : String) : JsObject.get [] k = JsVal.undefined := rfl

theorem JsObject.get_cons (k0 : String) (v0 : JsVal) (rest : JsObject) (k : String) :
    JsObject.get ((k0, v0) :: rest) k = if k = k0 then v0 else JsObject.get rest k := by
  unfold JsObject.get
  by_cases h : k = k0
  · subst h
    simp [List.lookup]
  · have hb : (k == k0) = false := by simpa using h
    simp only [List.lookup, hb, h, if_false]

theorem JsObject.get_set (o : JsObject) (k : String) (v : JsVal) (k2 : String) :
    (o.set k v).get k2 = if k2 = k then v else o.get k2 := by
  induction o with
  | nil => simp only [JsObject.set, JsObject.get_cons, JsObject.get_nil]
  | cons kv rest ih =>
    obtain ⟨k0, v0⟩ := kv
    simp only [JsObject.set]
    by_cases h0 : k0 = k
    · subst h0
      simp only [if_true, JsObject.get_cons]
      by_cases h : k2 = k0 <;> simp [h]
    · simp only [h0, if_false, JsObject.get_cons, ih]
      by_cases h : k2 = k
      · subst h
        have : ¬ k2 = k0 := fun e => h0 e.symm
        simp [this]
      · simp [h]

theorem deref_alloc_old (heap : Heap) (o : JsObject) (addr : Nat) (h : addr < heap.length) :
    deref (alloc heap o).1 addr = deref heap addr := by
  simp [deref, alloc, List.getElem?_append_left h]

theorem deref_alloc_new (heap : Heap) (o : JsObject) :
    deref (alloc heap o).1 (alloc heap o).2 = o := by
  simp [deref, alloc]

theorem initializeProfessionalCalendar_heap (page : Page) (calendarEl : CalendarEl)
    (baseConfig : Nat) (w : World) :
    (initializeProfessionalCalendar page calendarEl baseConfig w).1.heap
      = w.heap ++ [objectLiteral (deref w.heap baseConfig)
          (professionalOverrides (orString calendarEl.eventsUrl "/professional/api/appointments")
            page.businessHours (deref w.heap baseConfig))] ∧
    (initializeProfessionalCalendar page calendarEl baseConfig w).2 = w.heap.length := by
  unfold initializeProfessionalCalendar constructAndRender alloc
  dsimp only
  split <;> exact ⟨rfl, rfl⟩

theorem professionalConfigOf_eq (page : Page) (calendarEl : CalendarEl)
    (baseConfig : Nat) (w : World) :
    professionalConfigOf page calendarEl baseConfig w
      = objectLiteral (deref w.heap baseConfig)
          (professionalOverrides (orString calendarEl.eventsUrl "/professional/api/appointments")
            page.businessHours (deref w.heap baseConfig)) := by
  unfold professionalConfigOf
  rw [(initializeProfessionalCalendar_heap page calendarEl baseConfig w).1,
    (initializeProfessionalCalendar_heap page calendarEl baseConfig w).2]
  simp [deref]

theorem deref_append_new (heap extra : Heap) (i : Nat) :
    deref (heap ++ extra) (heap.length + i) = deref extra i := by
  simp [deref, List.getElem?_append_right]

theorem initializeBookingCalendar_heap (page : Page) (baseConfig : Nat) (w : World) :
    (initializeBookingCalendar page baseConfig w).1.heap
      = w.heap ++ [objectLiteral [] [("start", JsVal.date page.now)],
          objectLiteral (deref w.heap baseConfig) (bookingOverrides w.heap.length)] ∧
    (initializeBookingCalendar page baseConfig w).2 = w.heap.length + 1 := by
  simp [initializeBookingCalendar, constructAndRender, alloc]

theorem initializeProfileCalendar_heap (baseConfig : Nat) (w : World) :
    (initializeProfileCalendar baseConfig w).1.heap
      = w.heap ++ [objectLiteral [] [("left", JsVal.str ""), ("center", JsVal.str "title"),
            ("right", JsVal.str "")],
          objectLiteral [] [("weeks", JsVal.num 2)],
          objectLiteral (deref w.heap baseConfig)
            (profileOverrides w.heap.length (w.heap.length + 1))] ∧
    (initializeProfileCalendar baseConfig w).2 = w.heap.length + 2 := by
  simp [initializeProfileCalendar, constructAndRender, alloc]

theorem bookingConfigOf_eq (page : Page) (baseConfig : Nat) (w : World) :
    bookingConfigOf page baseConfig w
      = objectLiteral (deref w.heap baseConfig) (bookingOverrides w.heap.length) := by
  unfold bookingConfigOf
  rw [(initializeBookingCalendar_heap page baseConfig w).1,
    (initializeBookingCalendar_heap page baseConfig w).2, deref_append_new]
  rfl

theorem profileConfigOf_eq (baseConfig : Nat) (w : World) :
    profileConfigOf baseConfig w
      = objectLiteral (deref w.heap baseConfig)
          (profileOverrides w.heap.length (w.heap.length + 1)) := by
  unfold profileConfigOf
  rw [(initializeProfileCalendar_heap baseConfig w).1,
    (initializeProfileCalendar_heap baseConfig w).2, deref_append_new]
  rfl

theorem deref_append_old (heap extra : Heap) (addr : Nat) (h : addr < heap.length) :
    deref (heap ++ extra) addr = deref heap addr := by
  simp [deref, List.getElem?_append_left h]

/-- The professional configuration: overrides, other keys, base untouched. -/
theorem professionalConfig_merge (page : Page) (calendarEl : CalendarEl) (baseConfig : Nat)
    (w : World) (hbase : baseConfig < w.heap.length) :
    (professionalConfigOf page calendarEl baseConfig w).get "initialView"
      = JsVal.str "timeGridWeek" ∧
    (professionalConfigOf page calendarEl baseConfig w).get "events"
      = JsVal.str (orString calendarEl.eventsUrl "/professional/api/appointments") ∧
    (professionalConfigOf page calendarEl baseConfig w).get "eventClick"
      = JsVal.fn "professionalConfig.eventClick" ∧
    (professionalConfigOf page calendarEl baseConfig w).get "dateClick"
      = JsVal.fn "professionalConfig.dateClick" ∧
    (professionalConfigOf page calendarEl baseConfig w).get "businessHours"
      = (if page.businessHours.truthy = true then page.businessHours
         else (deref w.heap baseConfig).get "businessHours") ∧
    (∀ k, k ∉ ["initialView", "events", "eventClick", "dateClick", "businessHours"] →
      (professionalConfigOf page calendarEl baseConfig w).get k
        = (deref w.heap baseConfig).get k) ∧
    deref (initializeProfessionalCalendar page calendarEl baseConfig w).1.heap baseConfig
      = deref w.heap baseConfig := by
  rw [professionalConfigOf_eq, (initializeProfessionalCalendar_heap page calendarEl baseConfig w).1]
  refine ⟨?_, ?_, ?_, ?_, ?_, ?_, deref_append_old _ _ _ hbase⟩
  · simp [objectLiteral, professionalOverrides, JsObject.get_set]
  · simp [objectLiteral, professionalOverrides, JsObject.get_set]
  · simp [objectLiteral, professionalOverrides, JsObject.get_set]
  · simp [objectLiteral, professionalOverrides, JsObject.get_set]
  · simp [objectLiteral, professionalOverrides, JsObject.get_set, JsVal.or]
  · intro k hk
    simp only [List.mem_cons, List.mem_singleton, not_or, List.not_mem_nil, not_false_eq_true,
      and_true] at hk
    obtain ⟨h1, h2, h3, h4, h5⟩ := hk
    simp [objectLiteral, professionalOverrides, JsObject.get_set, h1, h2, h3, h4, h5]


/-- The booking configuration: overrides, other keys, base untouched. -/
theorem bookingConfig_merge (page : Page) (baseConfig : Nat) (w : World)
    (hbase : baseConfig < w.heap.length) :
    ((bookingConfigOf page baseConfig w).get "initialView" = JsVal.str "dayGridWeek" ∧
      (bookingConfigOf page baseConfig w).get "selectable" = JsVal.bool true ∧
      (bookingConfigOf page baseConfig w).get "unselectAuto" = JsVal.bool false ∧
      (bookingConfigOf page baseConfig w).get "select" = JsVal.fn "bookingConfig.select" ∧
      (bookingConfigOf page baseConfig w).get "dateClick" = JsVal.fn "bookingConfig.dateClick" ∧
      (∃ range, (bookingConfigOf page baseConfig w).get "validRange" = JsVal.ref range ∧
        deref (initializeBookingCalendar page baseConfig w).1.heap range
          = [("start", JsVal.date page.now)]) ∧
      (∀ k, k ∉ ["initialView", "selectable", "unselectAuto", "select", "dateClick",
          "validRange"] →
        (bookingConfigOf page baseConfig w).get k = (deref w.heap baseConfig).get k) ∧
      deref (initializeBookingCalendar page baseConfig w).1.heap baseConfig
        = deref w.heap baseConfig) := by
  rw [bookingConfigOf_eq, (initializeBookingCalendar_heap page baseConfig w).1]
  refine ⟨?_, ?_, ?_, ?_, ?_, ⟨w.heap.length, ?_, ?_⟩, ?_, deref_append_old _ _ _ hbase⟩
  · simp [objectLiteral, bookingOverrides, JsObject.get_set]
  · simp [objectLiteral, bookingOverrides, JsObject.get_set]
  · simp [objectLiteral, bookingOverrides, JsObject.get_set]
  · simp [objectLiteral, bookingOverrides, JsObject.get_set]
  · simp [objectLiteral, bookingOverrides, JsObject.get_set]
  · simp [objectLiteral, bookingOverrides, JsObject.get_set]
  · exact deref_append_new w.heap _ 0
  · intro k hk
    simp only [List.mem_cons, List.mem_singleton, not_or, List.not_mem_nil, not_false_eq_true,
      and_true] at hk
    obtain ⟨h1, h2, h3, h4, h5, h6⟩ := hk
    simp [objectLiteral, bookingOverrides, JsObject.get_set, h1, h2, h3, h4, h5, h6]

/-- The profile configuration: overrides, other keys, base untouched. -/
theorem profileConfig_merge (baseConfig : Nat) (w : World)
    (hbase : baseConfig < w.heap.length) :
    ((profileConfigOf baseConfig w).get "initialView" = JsVal.str "dayGridWeek" ∧
      (∃ toolbar, (profileConfigOf baseConfig w).get "headerToolbar" = JsVal.ref toolbar ∧
        deref (initializeProfileCalendar baseConfig w).1.heap toolbar
          = [("left", JsVal.str ""), ("center", JsVal.str "title"), ("right", JsVal.str "")]) ∧
      (profileConfigOf baseConfig w).get "height" = JsVal.str "auto" ∧
      (profileConfigOf baseConfig w).get "contentHeight" = JsVal.num 350 ∧
      (profileConfigOf baseConfig w).get "dayMaxEvents" = JsVal.num 0 ∧
      (profileConfigOf baseConfig w).get "selectable" = JsVal.bool false ∧
      (profileConfigOf baseConfig w).get "navLinks" = JsVal.bool false ∧
      (∃ duration, (profileConfigOf baseConfig w).get "duration" = JsVal.ref duration ∧
        deref (initializeProfileCalendar baseConfig w).1.heap duration
          = [("weeks", JsVal.num 2)]) ∧
      (∀ k, k ∉ ["initialView", "headerToolbar", "height", "contentHeight", "dayMaxEvents",
          "selectable", "navLinks", "duration"] →
        (profileConfigOf baseConfig w).get k = (deref w.heap baseConfig).get k) ∧
      deref (initializeProfileCalendar baseConfig w).1.heap baseConfig
        = deref w.heap baseConfig) := by
  rw [profileConfigOf_eq, (initializeProfileCalendar_heap baseConfig w).1]
  refine ⟨?_, ⟨w.heap.length, ?_, ?_⟩, ?_, ?_, ?_, ?_, ?_, ⟨w.heap.length + 1, ?_, ?_⟩, ?_,
    deref_append_old _ _ _ hbase⟩
  · simp [objectLiteral, profileOverrides, JsObject.get_set]
  · simp [objectLiteral, profileOverrides, JsObject.get_set]
  · exact deref_append_new w.heap _ 0
  · simp [objectLiteral, profileOverrides, JsObject.get_set]
  · simp [objectLiteral, profileOverrides, JsObject.get_set]
  · simp [objectLiteral, profileOverrides, JsObject.get_set]
  · simp [objectLiteral, profileOverrides, JsObject.get_set]
  · simp [objectLiteral, profileOverrides, JsObject.get_set]
  · simp [objectLiteral, profileOverrides, JsObject.get_set]
  · rw [deref_append_new]
    rfl
  · intro k hk
    simp only [List.mem_cons, List.mem_singleton, not_or, List.not_mem_nil, not_false_eq_true,
      and_true] at hk
    obtain ⟨h1, h2, h3, h4, h5, h6, h7, h8⟩ := hk
    simp [objectLiteral, profileOverrides, JsObject.get_set, h1, h2, h3, h4, h5, h6, h7, h8]

/-- C10, amended: each per-context configuration is a new object made of the
base template and the overrides of the context. Every overridden key has the
value of the override (professional: `initialView`, `events`, `eventClick`,
`dateClick`, `businessHours`; booking: `initialView`, `selectable`,
`unselectAuto`, `select`, `dateClick`, `validRange`; profile: `initialView`,
`headerToolbar`, `height`, `contentHeight`, `dayMaxEvents`, `selectable`,
`navLinks`, `duration`), every other key reads as in the base template, and the
base template object reads after the call as before it. In the professional
configuration `businessHours` is the page-global value when that value is
truthy, and the value of the base template otherwise. -/
theorem config_merge (page : Page) (calendarEl : CalendarEl) (baseConfig : Nat) (w : World)
    (hbase : baseConfig < w.heap.length) :
    ((professionalConfigOf page calendarEl baseConfig w).get "initialView"
        = JsVal.str "timeGridWeek" ∧
      (professionalConfigOf page calendarEl baseConfig w).get "events"
        = JsVal.str (orString calendarEl.eventsUrl "/professional/api/appointments") ∧
      (professionalConfigOf page calendarEl baseConfig w).get "eventClick"
        = JsVal.fn "professionalConfig.eventClick" ∧
      (professionalConfigOf page calendarEl baseConfig w).get "dateClick"
        = JsVal.fn "professionalConfig.dateClick" ∧
      (professionalConfigOf page calendarEl baseConfig w).get "businessHours"
        = (if page.businessHours.truthy = true then page.businessHours
           else (deref w.heap baseConfig).get "businessHours") ∧
      (∀ k, k ∉ ["initialView", "events", "eventClick", "dateClick", "businessHours"] →
        (professionalConfigOf page calendarEl baseConfig w).get k
          = (deref w.heap baseConfig).get k) ∧
      deref (initializeProfessionalCalendar page calendarEl baseConfig w).1.heap baseConfig
        = deref w.heap baseConfig) ∧
    ((bookingConfigOf page baseConfig w).get "initialView" = JsVal.str "dayGridWeek" ∧
      (bookingConfigOf page baseConfig w).get "selectable" = JsVal.bool true ∧
      (bookingConfigOf page baseConfig w).get "unselectAuto" = JsVal.bool false ∧
      (bookingConfigOf page baseConfig w).get "select" = JsVal.fn "bookingConfig.select" ∧
      (bookingConfigOf page baseConfig w).get "dateClick" = JsVal.fn "bookingConfig.dateClick" ∧
      (∃ range, (bookingConfigOf page baseConfig w).get "validRange" = JsVal.ref range ∧
        deref (initializeBookingCalendar page baseConfig w).1.heap range
          = [("start", JsVal.date page.now)]) ∧
      (∀ k, k ∉ ["initialView", "selectable", "unselectAuto", "select", "dateClick",
          "validRange"] →
        (bookingConfigOf page baseConfig w).get k = (deref w.heap baseConfig).get k) ∧
      deref (initializeBookingCalendar page baseConfig w).1.heap baseConfig
        = deref w.heap baseConfig) ∧
    ((profileConfigOf baseConfig w).get "initialView" = JsVal.str "dayGridWeek" ∧
      (∃ toolbar, (profileConfigOf baseConfig w).get "headerToolbar" = JsVal.ref toolbar ∧
        deref (initializeProfileCalendar baseConfig w).1.heap toolbar
          = [("left", JsVal.str ""), ("center", JsVal.str "title"), ("right", JsVal.str "")]) ∧
      (profileConfigOf baseConfig w).get "height" = JsVal.str "auto" ∧
      (profileConfigOf baseConfig w).get "contentHeight" = JsVal.num 350 ∧
      (profileConfigOf baseConfig w).get "dayMaxEvents" = JsVal.num 0 ∧
      (profileConfigOf baseConfig w).get "selectable" = JsVal.bool false ∧
      (profileConfigOf baseConfig w).get "navLinks" = JsVal.bool false ∧
      (∃ duration, (profileConfigOf baseConfig w).get "duration" = JsVal.ref duration ∧
        deref (initializeProfileCalendar baseConfig w).1.heap duration
          = [("weeks", JsVal.num 2)]) ∧
      (∀ k, k ∉ ["initialView", "headerToolbar", "height", "contentHeight", "dayMaxEvents",
          "selectable", "navLinks", "duration"] →
        (profileConfigOf baseConfig w).get k = (deref w.heap baseConfig).get k) ∧
      deref (initializeProfileCalendar baseConfig w).1.heap baseConfig
        = deref w.heap baseConfig) :=
  ⟨professionalConfig_merge page calendarEl baseConfig w hbase,
    bookingConfig_merge page baseConfig w hbase,
    profileConfig_merge baseConfig w hbase⟩

/-- Witness of C10: the three initialisers on the base template of the source. -/
theorem config_merge_witness :
    templateRef < templateWorld.heap.length ∧
    (((professionalConfigOf overlappingPage { eventsUrl := none } templateRef templateWorld).get "initialView"
        = JsVal.str "timeGridWeek" ∧
      (professionalConfigOf overlappingPage { eventsUrl := none } templateRef templateWorld).get "events"
        = JsVal.str (orString (none : Option String) "/professional/api/appointments") ∧
      (professionalConfigOf overlappingPage { eventsUrl := none } templateRef templateWorld).get "eventClick"
        = JsVal.fn "professionalConfig.eventClick" ∧
      (professionalConfigOf overlappingPage { eventsUrl := none } templateRef templateWorld).get "dateClick"
        = JsVal.fn "professionalConfig.dateClick" ∧
      (professionalConfigOf overlappingPage { eventsUrl := none } templateRef templateWorld).get "businessHours"
        = (if overlappingPage.businessHours.truthy = true then overlappingPage.businessHours
           else (deref templateWorld.heap templateRef).get "businessHours") ∧
      (∀ k, k ∉ ["initialView", "events", "eventClick", "dateClick", "businessHours"] →
        (professionalConfigOf overlappingPage { eventsUrl := none } templateRef templateWorld).get k
          = (deref templateWorld.heap templateRef).get k) ∧
      deref (initializeProfessionalCalendar overlappingPage { eventsUrl := none } templateRef templateWorld).1.heap templateRef
        = deref templateWorld.heap templateRef) ∧
    ((bookingConfigOf overlappingPage templateRef templateWorld).get "initialView" = JsVal.str "dayGridWeek" ∧
      (bookingConfigOf overlappingPage templateRef templateWorld).get "selectable" = JsVal.bool true ∧
      (bookingConfigOf overlappingPage templateRef templateWorld).get "unselectAuto" = JsVal.bool false ∧
      (bookingConfigOf overlappingPage templateRef templateWorld).get "select" = JsVal.fn "bookingConfig.select" ∧
      (bookingConfigOf overlappingPage templateRef templateWorld).get "dateClick" = JsVal.fn "bookingConfig.dateClick" ∧
      (∃ range, (bookingConfigOf overlappingPage templateRef templateWorld).get "validRange" = JsVal.ref range ∧
        deref (initializeBookingCalendar overlappingPage templateRef templateWorld).1.heap range
          = [("start", JsVal.date overlappingPage.now)]) ∧
      (∀ k, k ∉ ["initialView", "selectable", "unselectAuto", "select", "dateClick",
          "validRange"] →
        (bookingConfigOf overlappingPage templateRef templateWorld).get k = (deref templateWorld.heap templateRef).get k) ∧
      deref (initializeBookingCalendar overlappingPage templateRef templateWorld).1.heap templateRef
        = deref templateWorld.heap templateRef) ∧
    ((profileConfigOf templateRef templateWorld).get "initialView" = JsVal.str "dayGridWeek" ∧
      (∃ toolbar, (profileConfigOf templateRef templateWorld).get "headerToolbar" = JsVal.ref toolbar ∧
        deref (initializeProfileCalendar templateRef templateWorld).1.heap toolbar
          = [("left", JsVal.str ""), ("center", JsVal.str "title"), ("right", JsVal.str "")]) ∧
      (profileConfigOf templateRef templateWorld).get "height" = JsVal.str "auto" ∧
      (profileConfigOf templateRef templateWorld).get "contentHeight" = JsVal.num 350 ∧
      (profileConfigOf templateRef templateWorld).get "dayMaxEvents" = JsVal.num 0 ∧
      (profileConfigOf templateRef templateWorld).get "selectable" = JsVal.bool false ∧
      (profileConfigOf templateRef templateWorld).get "navLinks" = JsVal.bool false ∧
      (∃ duration, (profileConfigOf templateRef templateWorld).get "duration" = JsVal.ref duration ∧
        deref (initializeProfileCalendar templateRef templateWorld).1.heap duration
          = [("weeks", JsVal.num 2)]) ∧
      (∀ k, k ∉ ["initialView", "headerToolbar", "height", "contentHeight", "dayMaxEvents",
          "selectable", "navLinks", "duration"] →
        (profileConfigOf templateRef templateWorld).get k = (deref templateWorld.heap templateRef).get k) ∧
      deref (initializeProfileCalendar templateRef templateWorld).1.heap templateRef
        = deref templateWorld.heap templateRef)) :=
  ⟨by decide, config_merge overlappingPage { eventsUrl := none } templateRef templateWorld
    (by decide)⟩

/-- C10 as stated fails: with the page-global `businessHours` set to `false`
(present, and not `undefined`), the professional configuration built over the
base template of the source has `businessHours` equal to `true`, the value of
the template, not the page-global value. -/
theorem businessHours_false_not_used :
    pageWithBusinessHoursOff.businessHours ≠ JsVal.undefined ∧
    (professionalConfigOf pageWithBusinessHoursOff { eventsUrl := none } templateRef
        templateWorld).get "businessHours" = JsVal.bool true ∧
    (professionalConfigOf pageWithBusinessHoursOff { eventsUrl := none } templateRef
        templateWorld).get "businessHours" ≠ pageWithBusinessHoursOff.businessHours := by
  decide

/-! ## The scroll observer -/

theorem addClass_contains (el : DomElement) (cls : String) :
    (el.addClass cls).classList.contains cls = true := by
  unfold DomElement.addClass
  split
  · assumption
  · simp

theorem handleEntry_length (s : MainState) (entry : Entry) :
    (handleEntry s entry).elements.length = s.elements.length := by
  unfold handleEntry
  split <;> simp [List.length_modify]

theorem hasClass_handleEntry (s : MainState) (entry : Entry) (e : Nat) :
    (handleEntry s entry).hasClass e "animate-fade-in"
      = (s.hasClass e "animate-fade-in" ||
          ((entry.isIntersecting && entry.target == e) && decide (e < s.elements.length))) := by
  unfold handleEntry MainState.hasClass
  cases hi : entry.isIntersecting with
  | false => simp
  | true =>
    simp only [if_true, List.get?_eq_getElem?, List.getElem?_modify, Bool.true_and]
    cases hel : s.elements[e]? with
    | none =>
      have : ¬ e < s.elements.length := by
        intro h
        rw [List.getElem?_eq_getElem h] at hel
        exact Option.noConfusion hel
      simp [this]
    | some el =>
      have hlt : e < s.elements.length := (List.getElem?_eq_some_iff.mp hel).1
      by_cases ht : entry.target = e
      · have hc : "animate-fade-in" ∈ (el.addClass "animate-fade-in").classList := by
          simpa using addClass_contains el "animate-fade-in"
        simp [ht, hlt, hc]
      · simp [ht, hlt]

theorem isObserved_handleEntry (s : MainState) (entry : Entry) (e : Nat) :
    (handleEntry s entry).isObserved e
      = (s.isObserved e && !(entry.isIntersecting && entry.target == e)) := by
  unfold handleEntry MainState.isObserved
  cases hi : entry.isIntersecting with
  | false => simp
  | true =>
    cases hobs : s.observed with
    | none => simp
    | some targets =>
      simp only [if_true, Option.map_some', Bool.true_and]
      by_cases ht : entry.target = e
      · subst ht
        simp
      · have hne : ¬ e = entry.target := fun h => ht h.symm
        by_cases hmem : e ∈ targets <;> simp [ht, hne, hmem, List.mem_filter]

theorem observerCallback_length (entries : List Entry) (s : MainState) :
    (observerCallback s entries).elements.length = s.elements.length := by
  unfold observerCallback
  induction entries generalizing s with
  | nil => rfl
  | cons entry rest ih =>
    simp only [List.foldl_cons]
    rw [ih, handleEntry_length]

theorem hasClass_observerCallback (entries : List Entry) (s : MainState) (e : Nat) :
    (observerCallback s entries).hasClass e "animate-fade-in"
      = (s.hasClass e "animate-fade-in" ||
          (reports entries e && decide (e < s.elements.length))) := by
  unfold observerCallback reports
  induction entries generalizing s with
  | nil => simp
  | cons entry rest ih =>
    simp only [List.foldl_cons, List.any_cons]
    rw [ih, hasClass_handleEntry, handleEntry_length]
    cases s.hasClass e "animate-fade-in" <;> cases (entry.isIntersecting && entry.target == e)
      <;> cases decide (e < s.elements.length) <;> simp

theorem isObserved_observerCallback (entries : List Entry) (s : MainState) (e : Nat) :
    (observerCallback s entries).isObserved e
      = (s.isObserved e && !reports entries e) := by
  unfold observerCallback reports
  induction entries generalizing s with
  | nil => simp
  | cons entry rest ih =>
    simp only [List.foldl_cons, List.any_cons]
    rw [ih, isObserved_handleEntry]
    cases s.isObserved e <;> cases (entry.isIntersecting && entry.target == e) <;> simp

theorem stateAfter_succ (ns : List (List Entry)) (s : MainState) (k : Nat) :
    stateAfter ns s (k + 1)
      = match ns.get? k with
        | some entries => observerCallback (stateAfter ns s k) entries
        | none => stateAfter ns s k := by
  unfold stateAfter
  rw [List.take_succ, List.foldl_append, List.get?_eq_getElem?]
  cases ns[k]? <;> rfl

theorem stateAfter_length (ns : List (List Entry)) (s : MainState) (k : Nat) :
    (stateAfter ns s k).elements.length = s.elements.length := by
  induction k with
  | zero => rfl
  | succ k ih =>
    rw [stateAfter_succ]
    cases ns.get? k with
    | none => exact ih
    | some entries => simp only; rw [observerCallback_length, ih]

theorem hasClass_stateAfter_succ (ns : List (List Entry)) (s : MainState) (e k : Nat) :
    (stateAfter ns s (k + 1)).hasClass e "animate-fade-in"
      = ((stateAfter ns s k).hasClass e "animate-fade-in" ||
          (reportsAt ns e k && decide (e < s.elements.length))) := by
  rw [stateAfter_succ]
  unfold reportsAt
  cases ns.get? k with
  | none => simp
  | some entries =>
    simp only
    rw [hasClass_observerCallback, stateAfter_length]

theorem isObserved_stateAfter_succ (ns : List (List Entry)) (s : MainState) (e k : Nat) :
    (stateAfter ns s (k + 1)).isObserved e
      = ((stateAfter ns s k).isObserved e && !reportsAt ns e k) := by
  rw [stateAfter_succ]
  unfold reportsAt
  cases ns.get? k with
  | none => simp
  | some entries =>
    simp only
    rw [isObserved_observerCallback]

/-- Once carried, the class stays. -/
theorem hasClass_mono (ns : List (List Entry)) (s : MainState) (e k m : Nat) (hkm : k ≤ m)
    (h : (stateAfter ns s k).hasClass e "animate-fade-in" = true) :
    (stateAfter ns s m).hasClass e "animate-fade-in" = true := by
  induction m with
  | zero =>
    have : k = 0 := Nat.le_zero.mp hkm
    subst this
    exact h
  | succ m ih =>
    by_cases hk : k = m + 1
    · subst hk
      exact h
    · rw [hasClass_stateAfter_succ, ih (by omega)]
      rfl

/-- Once unobserved, an element stays unobserved. -/
theorem isObserved_anti (ns : List (List Entry)) (s : MainState) (e k m : Nat) (hkm : k ≤ m)
    (h : (stateAfter ns s k).isObserved e = false) :
    (stateAfter ns s m).isObserved e = false := by
  induction m with
  | zero =>
    have : k = 0 := Nat.le_zero.mp hkm
    subst this
    exact h
  | succ m ih =>
    by_cases hk : k = m + 1
    · subst hk
      exact h
    · rw [isObserved_stateAfter_succ, ih (by omega)]
      rfl

/-- Without a report the class list of the element does not change. -/
theorem hasClass_unchanged (ns : List (List Entry)) (s : MainState) (e k : Nat)
    (h : ∀ j, j < k → reportsAt ns e j = false) :
    (stateAfter ns s k).hasClass e "animate-fade-in" = s.hasClass e "animate-fade-in" := by
  induction k with
  | zero => rfl
  | succ k ih =>
    rw [hasClass_stateAfter_succ, ih (fun j hj => h j (by omega)), h k (by omega)]
    simp

/-- An element of the page that lacks the class has not been reported yet. -/
theorem no_report_before (ns : List (List Entry)) (s : MainState) (e k : Nat)
    (he : e < s.elements.length)
    (h : (stateAfter ns s k).hasClass e "animate-fade-in" = false) :
    ∀ j, j < k → reportsAt ns e j = false := by
  intro j hj
  cases hr : reportsAt ns e j with
  | false => rfl
  | true =>
    have h1 : (stateAfter ns s (j + 1)).hasClass e "animate-fade-in" = true := by
      rw [hasClass_stateAfter_succ, hr]
      simp [he]
    have h2 := hasClass_mono ns s e (j + 1) k (by omega) h1
    rw [h] at h2
    exact absurd h2 (by simp)

/-- C8: for every sequence of notifications and every element `e` of the page
(so for every element tagged `animate-on-scroll`): the class `animate-fade-in`
is gained at most once; it can only be gained at the first notification that
reports `e` as intersecting, and is gained there when `e` did not carry it
before; from that notification on `e` carries the class and is no longer a
target of the observer; an element no notification reports as intersecting
keeps its class list and never gains the class. -/
theorem scroll_animation_once (ns : List (List Entry)) (s : MainState) (e : Nat)
    (he : e < s.elements.length) :
    (∀ i j, receivesAt ns s e i → receivesAt ns s e j → i = j) ∧
    (∀ k, receivesAt ns s e k → firstReportAt ns e k) ∧
    (s.hasClass e "animate-fade-in" = false →
      ∀ k, firstReportAt ns e k → receivesAt ns s e k) ∧
    (∀ k, firstReportAt ns e k → ∀ m, k < m →
      (stateAfter ns s m).hasClass e "animate-fade-in" = true ∧
      (stateAfter ns s m).isObserved e = false) ∧
    ((∀ k, reportsAt ns e k = false) → ∀ k,
      (stateAfter ns s k).hasClass e "animate-fade-in" = s.hasClass e "animate-fade-in" ∧
      ¬ receivesAt ns s e k) := by
  have hfirst : ∀ k, receivesAt ns s e k → firstReportAt ns e k := by
    intro k ⟨h1, h2⟩
    refine ⟨?_, no_report_before ns s e k he h1⟩
    rw [hasClass_stateAfter_succ, h1] at h2
    cases hr : reportsAt ns e k with
    | true => rfl
    | false => rw [hr] at h2; simp at h2
  have hunique : ∀ i j, firstReportAt ns e i → firstReportAt ns e j → i = j := by
    intro i j hi hj
    rcases Nat.lt_trichotomy i j with hlt | heq | hgt
    · have := hj.2 i hlt
      rw [hi.1] at this
      exact absurd this (by simp)
    · exact heq
    · have := hi.2 j hgt
      rw [hj.1] at this
      exact absurd this (by simp)
  refine ⟨?_, hfirst, ?_, ?_, ?_⟩
  · intro i j hi hj
    exact hunique i j (hfirst i hi) (hfirst j hj)
  · intro h0 k hk
    constructor
    · rw [hasClass_unchanged ns s e k hk.2, h0]
    · rw [hasClass_stateAfter_succ, hk.1]
      simp [he]
  · intro k hk m hkm
    constructor
    · apply hasClass_mono ns s e (k + 1) m (by omega)
      rw [hasClass_stateAfter_succ, hk.1]
      simp [he]
    · apply isObserved_anti ns s e (k + 1) m (by omega)
      rw [isObserved_stateAfter_succ, hk.1]
      simp
  · intro hnone k
    refine ⟨hasClass_unchanged ns s e k (fun j _ => hnone j), ?_⟩
    intro hrec
    have := (hfirst k hrec).1
    rw [hnone k] at this
    exact absurd this (by simp)

/-- Witness of C8: the first element of a page with two tagged elements, over
three notifications of which the second and the third report it. -/
theorem scroll_animation_once_witness :
    0 < scrollPage.elements.length ∧
    ((∀ i j, receivesAt scrollNotifications scrollPage 0 i →
      receivesAt scrollNotifications scrollPage 0 j → i = j) ∧
    (∀ k, receivesAt scrollNotifications scrollPage 0 k →
      firstReportAt scrollNotifications 0 k) ∧
    (scrollPage.hasClass 0 "animate-fade-in" = false →
      ∀ k, firstReportAt scrollNotifications 0 k →
        receivesAt scrollNotifications scrollPage 0 k) ∧
    (∀ k, firstReportAt scrollNotifications 0 k → ∀ m, k < m →
      (stateAfter scrollNotifications scrollPage m).hasClass 0 "animate-fade-in" = true ∧
      (stateAfter scrollNotifications scrollPage m).isObserved 0 = false) ∧
    ((∀ k, reportsAt scrollNotifications 0 k = false) → ∀ k,
      (stateAfter scrollNotifications scrollPage k).hasClass 0 "animate-fade-in"
        = scrollPage.hasClass 0 "animate-fade-in" ∧
      ¬ receivesAt scrollNotifications scrollPage 0 k)) :=
  ⟨by decide, scroll_animation_once scrollNotifications scrollPage 0 (by decide)⟩

/-- On the sample page the first element gains the class at the second
notification, the first that reports it, and is reported again afterwards
without any further change. -/
theorem scroll_animation_sample :
    scrollPage.observed = some [0, 1] ∧
    scrollPage.hasClass 0 "animate-fade-in" = false ∧
    firstReportAt scrollNotifications 0 1 ∧
    receivesAt scrollNotifications scrollPage 0 1 ∧
    (stateAfter scrollNotifications scrollPage 2).observed = some [] ∧
    stateAfter scrollNotifications scrollPage 3 = stateAfter scrollNotifications scrollPage 2 := by
  decide

end GestorCitas
